import Mathlib

/-!
Verification of the asset subsystem of the engine repository: attribute and
element arrays, meshes, materials, textures and the resource manager
(src/asset/vertexarray.go, src/asset/meshutil.go, src/asset/material.go,
src/unnamed/part_000..part_002), together with proofs of the specification
claims.

Modeling conventions:
* Go `int` values are modeled as `Int`; Go `uint32` handles as `Nat`.
* The OpenGL device and the file system are external collaborators
  (spec sections 1 and 6); the device is modeled as a deterministic state
  `GLState` that hands out fresh object names and on which compilation and
  linking always succeed with an empty info log.  Buffer allocation and
  deletion are tracked in `liveBufs`.
* A Go function that can `panic` yields `Res.fatal`; a non-nil returned
  `error` yields `Res.err`.
* Go maps are modeled as association lists with insert-at-head
  (`mapInsert`), which gives the overwrite semantics of Go map assignment
  for lookups; map iteration order (unspecified in Go) is the list order.
* Numeric payloads (float values, pixel data, index values) are never
  inspected by this subsystem - they are handed to the device as opaque
  pointers - so slice payloads are modeled by their element type and
  length (and, where the code reads it, the Go slice capacity) only.
* Quoting punctuation inside Go error-message strings is elided; the
  wording is otherwise kept.
-/

/-- Outcome of a Go computation: normal value, returned error, or panic. -/
inductive Res (α : Type) where
  | ok    : α → Res α
  | err   : String → Res α
  | fatal : String → Res α
  deriving DecidableEq

/-- OpenGL element-type enums used by the arrays. -/
inductive GLType where
  | unsignedByte
  | float
  | double
  | unsignedInt
  deriving DecidableEq

/-- gl.TRIANGLES -/
def GL_TRIANGLES : Nat := 0x0004
/-- gl.STATIC_DRAW -/
def STATIC_DRAW : Nat := 0x88E4
/-- gl.VERTEX_SHADER -/
def GL_VERTEX_SHADER : Nat := 0x8B31
/-- gl.FRAGMENT_SHADER -/
def GL_FRAGMENT_SHADER : Nat := 0x8B30
/-- gl.GEOMETRY_SHADER -/
def GL_GEOMETRY_SHADER : Nat := 0x8DD9

/-- State of the OpenGL device: the next fresh object name, the buffer
objects currently allocated, and the number of program link operations
performed so far. -/
structure GLState where
  nextName  : Nat
  liveBufs  : List Nat
  linkCount : Nat
  deriving DecidableEq

/-- Fresh device with object names starting at 1 (0 is the GL null name). -/
def GLState.init : GLState := ⟨1, [], 0⟩

/-- gl.GenBuffers(1, _) : allocate one buffer object. -/
def glGenBuffer (st : GLState) : Nat × GLState :=
  (st.nextName,
   { st with nextName := st.nextName + 1, liveBufs := st.nextName :: st.liveBufs })

/-- gl.DeleteBuffers(1, _) : release a buffer object. -/
def glDeleteBuffer (b : Nat) (st : GLState) : GLState :=
  { st with liveBufs := st.liveBufs.filter (fun x => x != b) }

/-- gl.CreateShader : allocate a shader object name. -/
def glCreateShader (st : GLState) : Nat × GLState :=
  (st.nextName, { st with nextName := st.nextName + 1 })

/-- gl.CreateProgram : allocate a program object name. -/
def glCreateProgram (st : GLState) : Nat × GLState :=
  (st.nextName, { st with nextName := st.nextName + 1 })

/-- gl.LinkProgram : one link operation on the device. -/
def glLinkProgram (st : GLState) : GLState :=
  { st with linkCount := st.linkCount + 1 }

/-- Go map read (comma-ok form): first binding for the key, if any. -/
def mapLookup {κ β : Type} [DecidableEq κ] : List (κ × β) → κ → Option β
  | [], _ => none
  | (k, v) :: rest, key => if k = key then some v else mapLookup rest key

/-- Go map assignment `m[k] = v`: the new binding shadows any older one. -/
def mapInsert {κ β : Type} [DecidableEq κ] (m : List (κ × β)) (k : κ) (v : β) :
    List (κ × β) :=
  (k, v) :: m

/-- The closed set of slice payload types accepted by NewAttribArray
(src/asset/vertexarray.go lines 51-98): []uint8, []float32, []mgl32.Vec2,
[]mgl32.Vec3, []float64, []mgl64.Vec2, []mgl64.Vec3, each modeled by its
slice length (element values are opaque to the subsystem). -/
inductive GoData where
  | uint8Slice   (len : Nat)
  | float32Slice (len : Nat)
  | vec2f32Slice (len : Nat)
  | vec3f32Slice (len : Nat)
  | float64Slice (len : Nat)
  | vec2f64Slice (len : Nat)
  | vec3f64Slice (len : Nat)
  deriving DecidableEq

/-- reflect slice length `val.Len()`. -/
def dataLen : GoData → Nat := fun
  | .uint8Slice n | .float32Slice n | .vec2f32Slice n | .vec3f32Slice n
  | .float64Slice n | .vec2f64Slice n | .vec3f64Slice n => n

/-- The type switch shared by NewAttribArray and AttribArray.Update
(src/asset/vertexarray.go lines 51-98 and 145-192): determines the GL
element type and the expanded scalar element count; a fixed-size vector
payload whose component count disagrees with the declared dimensions
panics with a dimension mismatch. -/
def expandData (dims : Int) : GoData → Res (Int × GLType)
  | .uint8Slice n   => .ok (n, .unsignedByte)
  | .float32Slice n => .ok (n, .float)
  | .vec2f32Slice n =>
      if dims = 2 then .ok (n * 2, .float)
      else .fatal "AttribArray error: dimension mismatch"
  | .vec3f32Slice n =>
      if dims = 3 then .ok (n * 3, .float)
      else .fatal "AttribArray error: dimension mismatch"
  | .float64Slice n => .ok (n, .double)
  | .vec2f64Slice n =>
      if dims = 2 then .ok (n * 2, .double)
      else .fatal "AttribArray error: dimension mismatch"
  | .vec3f64Slice n =>
      if dims = 3 then .ok (n * 3, .double)
      else .fatal "AttribArray error: dimension mismatch"

/-- AttribArray (src/asset/vertexarray.go lines 21-28).  `Typ` is the field
named `Type` in the source (a Lean keyword). -/
structure AttribArray where
  Name : String
  Dims : Int
  Typ  : GLType
  Buf  : Nat
  Len  : Int
  Cap  : Int
  deriving DecidableEq

/-- AttribLenError (src/asset/vertexarray.go lines 14-17). -/
def attribLenError (name : String) (length dims : Int) : String :=
  "AttribArray error: " ++ name ++ " length " ++ toString length ++
    " is not a multiple of elements " ++ toString dims

/-- NewAttribArray (src/asset/vertexarray.go lines 34-120).  The
reflect-kind check never fails for the closed payload model; a zero
`dims` makes the Go expression `l % dims` panic with a division by zero. -/
def newAttribArray (name : String) (dims : Int) (data : GoData) (usage : Nat)
    (st : GLState) : GLState × Res AttribArray :=
  let l0 : Int := dataLen data
  if l0 = 0 then
    (st, .err ("AttribArray error: " ++ name ++ " length is zero"))
  else
    match expandData dims data with
    | .fatal m => (st, .fatal m)
    | .err m => (st, .err m)
    | .ok (l, typ) =>
      if dims = 0 then (st, .fatal "runtime error: integer divide by zero")
      else if l.tmod dims ≠ 0 then (st, .err (attribLenError name l dims))
      else
        let p := glGenBuffer st
        (p.2, .ok ⟨name, dims, typ, p.1, l, l⟩)

/-- AttribArray.Update (src/asset/vertexarray.go lines 124-207).  `arr.Len`
is assigned the raw slice length before any check; empty data returns
early with a nil error; the capacity check uses the pre-expansion length;
the type check and the dimension-multiple check panic on failure. -/
def attribUpdate (arr : AttribArray) (data : GoData) : Res AttribArray :=
  let l : Int := dataLen data
  let arr1 := { arr with Len := l }
  if l = 0 then .ok arr1
  else if l > arr.Cap then
    .fatal "asset.AttribArray.Update error: data length is longer than buffer"
  else
    match expandData arr.Dims data with
    | .fatal m => .fatal m
    | .err m => .err m
    | .ok (lx, typ) =>
      let arr2 := { arr1 with Len := lx }
      if arr.Typ ≠ typ then
        .fatal "asset.AttribArray.Update error: data type does not match array type"
      else if arr.Dims = 0 then .fatal "runtime error: integer divide by zero"
      else if lx.tmod arr.Dims ≠ 0 then
        .fatal "asset.AttribArray.Update error: invalid data length"
      else .ok arr2

/-- AttribArray.Attribs (src/asset/vertexarray.go lines 218-220): element
group count, Go truncated integer division. -/
def AttribArray.attribs (arr : AttribArray) : Int := arr.Len.tdiv arr.Dims

/-- AttribArray.Clean (src/asset/vertexarray.go lines 223-229): a nil
receiver is a no-op, otherwise the buffer object is released. -/
def attribClean (arr : Option AttribArray) (st : GLState) : GLState :=
  match arr with
  | none => st
  | some a => glDeleteBuffer a.Buf st

/-- The slice payload types accepted by the element-array code
([]uint8 and []uint32), modeled by slice length and Go slice capacity -
NewElementArray reads `v.Cap()`. -/
inductive ElemData where
  | uint8Slice  (len cap : Nat)
  | uint32Slice (len cap : Nat)
  deriving DecidableEq

/-- reflect slice length of an index payload. -/
def elemLen : ElemData → Nat := fun
  | .uint8Slice l _ | .uint32Slice l _ => l

/-- reflect slice capacity `v.Cap()` of an index payload. -/
def elemCap : ElemData → Nat := fun
  | .uint8Slice _ c | .uint32Slice _ c => c

/-- GL element type of an index payload. -/
def elemTypeOf : ElemData → GLType := fun
  | .uint8Slice _ _ => .unsignedByte
  | .uint32Slice _ _ => .unsignedInt

/-- ElementArray (src/asset/vertexarray.go lines 232-237). -/
structure ElementArray where
  Typ : GLType
  Buf : Nat
  Len : Int
  Cap : Int
  deriving DecidableEq

/-- NewElementArray (src/asset/vertexarray.go lines 240-277).  `Cap` is
set from `v.Cap()`, the capacity of the Go slice, not its length. -/
def newElementArray (data : ElemData) (usage : Nat) (st : GLState) :
    GLState × Res ElementArray :=
  let l : Int := elemLen data
  if l = 0 then (st, .err "asset.NewElementArray error: data length is zero")
  else
    let p := glGenBuffer st
    (p.2, .ok ⟨elemTypeOf data, p.1, l, elemCap data⟩)

/-- ElementArray.Update (src/asset/vertexarray.go lines 281-318).  The
capacity check panics on failure; taking the element pointer of an empty
slice panics; a type mismatch panics. -/
def elemUpdate (arr : ElementArray) (data : ElemData) : Res ElementArray :=
  let l : Int := elemLen data
  if l > arr.Cap then .fatal "ElementArray error: data is larger than array"
  else
    let arr1 := { arr with Len := l }
    if l = 0 then .fatal "runtime error: index out of range"
    else if arr.Typ ≠ elemTypeOf data then
      .fatal "asset.ElementArray.Update error: data type does not match array type"
    else .ok arr1

/-- ElementArray.Clean (src/asset/vertexarray.go lines 326-332). -/
def elemClean (arr : Option ElementArray) (st : GLState) : GLState :=
  match arr with
  | none => st
  | some a => glDeleteBuffer a.Buf st

/-- Texture (src/unnamed/part_000 lines 14-19). -/
structure Texture where
  Name : String
  Tex  : Nat
  Buf  : Nat
  W    : Int
  H    : Int
  deriving DecidableEq

/-- image.Point: an offset into a texture. -/
structure GoPoint where
  X : Int
  Y : Int
  deriving DecidableEq

/-- An image is modeled by the side lengths of its bounds rectangle
(`bounds.Dx()`, `bounds.Dy()`); pixel content and layout are opaque to the
bounds logic (any non-RGBA image is converted before upload). -/
structure GoImage where
  Dx : Int
  Dy : Int
  deriving DecidableEq

/-- Texture.LoadSubImage (src/unnamed/part_000 lines 64-79).  Only the
upper bounds are checked; the staging-buffer copy and the GPU region copy
in LoadSubRGBA are device operations modeled as succeeding (the map-buffer
failure there is an external-device condition, spec section 1). -/
def loadSubImage (t : Texture) (img : GoImage) (offset : GoPoint) (level : Int) :
    Option String :=
  if img.Dx + offset.X > t.W ∨ img.Dy + offset.Y > t.H then
    some "asset.Texture.LoadSubImage error: image out of bounds"
  else
    none

/-- The closed set of uniform value variants handled by Mesh.DrawUniforms
(src/unnamed/part_001 lines 97-112); float payloads are opaque, `other`
stands for any unhandled variant. -/
inductive UniformValue where
  | int32 (v : Int)
  | float32
  | vec2
  | vec3
  | vec4
  | mat4
  | other
  deriving DecidableEq

/-- A GL call issued during drawing, recorded as a trace event. -/
inductive GLCall where
  | enableTexture2d
  | disableTexture2d
  | activeTexture (unit : Nat)
  | bindTexture (tex : Nat)
  | useProgram (prog : Nat)
  | uniform1i (loc : Int) (v : Int)
  | uniform1f (loc : Int)
  | uniform2fv (loc : Int)
  | uniform3fv (loc : Int)
  | uniform4fv (loc : Int)
  | uniformMatrix4fv (loc : Int)
  | bindVertexArray (arr : Nat)
  | drawElements (prim : Nat) (count : Int) (typ : GLType)
  deriving DecidableEq

/-- Material (src/asset/material.go lines 10-19). -/
structure Material where
  Name        : String
  Textures    : List Texture
  Samplers    : List String
  Prog        : Nat
  AttribLocs  : List (String × Nat)
  UniformLocs : List (String × Int)
  deriving DecidableEq

/-- NewMaterial (src/asset/material.go lines 22-28). -/
def newMaterial (name : String) : Material := ⟨name, [], [], 0, [], []⟩

/-- Go map indexing `m[k]` without the comma-ok form: a missing key yields
the zero value of the value type (0 for int32). -/
def mapGetZero (m : List (String × Int)) (k : String) : Int :=
  (mapLookup m k).getD 0

/-- Loop body of Material.InitUniformLocs (src/asset/material.go lines
70-79).  `progUniform` is the uniform table of the linked program on the
device (gl.GetUniformLocation returns -1 for an unknown name). -/
def initUniformLocsLoop (mat : Material) (progUniform : String → Int) :
    List String → Material × Option String
  | [] => (mat, none)
  | name :: rest =>
    let loc := progUniform name
    if loc = -1 then
      (mat, some ("Material error: material " ++ mat.Name ++
        " has no uniform " ++ name))
    else
      initUniformLocsLoop
        { mat with UniformLocs := mapInsert mat.UniformLocs name loc }
        progUniform rest

/-- Material.InitUniformLocs (src/asset/material.go lines 65-82). -/
def initUniformLocs (mat : Material) (progUniform : String → Int)
    (names : List String) : Material × Option String :=
  if mat.Prog = 0 then
    (mat, some ("Material error: material " ++ mat.Name ++
      " has no shader program from which to get uniform locations"))
  else initUniformLocsLoop mat progUniform names

/-- Material.Use (src/asset/material.go lines 85-90): bind every texture
to consecutive units starting at 0, then activate the program. -/
def materialUse (mat : Material) : List GLCall :=
  ((mat.Textures.enum.map (fun p =>
    [GLCall.enableTexture2d, GLCall.activeTexture p.1,
     GLCall.bindTexture p.2.Tex])).flatten)
  ++ [GLCall.useProgram mat.Prog]

/-- Material.Release (src/asset/material.go lines 93-99). -/
def materialRelease (mat : Material) : List GLCall :=
  GLCall.useProgram 0 ::
    (mat.Textures.map (fun _ =>
      [GLCall.bindTexture 0, GLCall.disableTexture2d])).flatten

/-- Mesh (src/unnamed/part_001 lines 25-32).  `Arr` is the field named
`Array` in the source. -/
structure Mesh where
  Name      : String
  Attribs   : List (String × AttribArray)
  Elements  : Option ElementArray
  Arr       : Nat
  Primitive : Nat
  Vertices  : Int
  deriving DecidableEq

/-- NewMesh (src/unnamed/part_001 lines 35-41): Vertices starts at -1. -/
def newMesh (name : String) : Mesh := ⟨name, [], none, 0, 0, -1⟩

/-- The inconsistent-sizes error of Mesh.AddArrays. -/
def meshInconsistentError (name : String) : String :=
  "Mesh " ++ name ++ " error: AttribArray sizes are inconsistent."

/-- Mesh.AddArrays (src/unnamed/part_001 lines 45-60): nil entries are
skipped; the first non-nil array fixes the vertex count; later arrays must
agree or the call returns an error immediately, leaving the mesh as the
preceding iterations left it. -/
def addArrays (m : Mesh) : List (Option AttribArray) → Mesh × Option String
  | [] => (m, none)
  | none :: rest => addArrays m rest
  | some arr :: rest =>
    if m.Vertices = -1 then
      addArrays
        { m with Vertices := arr.attribs,
                 Attribs := mapInsert m.Attribs arr.Name arr } rest
    else if arr.attribs ≠ m.Vertices then
      (m, some (meshInconsistentError m.Name))
    else
      addArrays { m with Attribs := mapInsert m.Attribs arr.Name arr } rest

/-- The uniform loop of Mesh.DrawUniforms (src/unnamed/part_001 lines
91-113): the location is read with plain Go map indexing (zero value 0 on
a missing key), negative locations are skipped, and an unhandled value
variant panics. -/
def drawUniformLoop (mat : Material) :
    List (String × UniformValue) → Res (List GLCall)
  | [] => .ok []
  | (name, value) :: rest =>
    let loc := mapGetZero mat.UniformLocs name
    if loc < 0 then drawUniformLoop mat rest
    else
      match value with
      | .other => .fatal "Mesh.DrawUniforms: unhandled uniform type"
      | v =>
        let c : GLCall :=
          match v with
          | .int32 i => .uniform1i loc i
          | .float32 => .uniform1f loc
          | .vec2 => .uniform2fv loc
          | .vec3 => .uniform3fv loc
          | .vec4 => .uniform4fv loc
          | _ => .uniformMatrix4fv loc
        match drawUniformLoop mat rest with
        | .ok cs => .ok (c :: cs)
        | r => r

/-- Mesh.DrawUniforms (src/unnamed/part_001 lines 88-122): bind the
material, set the uniforms, bind the vertex array, issue one indexed draw
over the full element length, unbind, release the material.  Reading
`m.Elements.Len` through a nil pointer panics. -/
def drawUniforms (m : Mesh) (mat : Material)
    (uniforms : List (String × UniformValue)) : Res (List GLCall) :=
  match drawUniformLoop mat uniforms with
  | .fatal msg => .fatal msg
  | .err msg => .err msg
  | .ok us =>
    match m.Elements with
    | none => .fatal "runtime error: invalid memory address or nil pointer dereference"
    | some e =>
      .ok (materialUse mat ++ us ++
        [GLCall.bindVertexArray m.Arr,
         GLCall.drawElements m.Primitive e.Len e.Typ,
         GLCall.bindVertexArray 0] ++ materialRelease mat)

/-- The texcoord channel name `fmt.Sprintf("texcoord%d", i)`. -/
def texName (i : Nat) : String := "texcoord" ++ toString i

/-- The deferred cleanup of MakeMesh (src/asset/meshutil.go lines 33-43),
run when a non-nil error is being returned: Clean the pos, color and
normal array variables, every texcoord array slot, and the element array
variable, in that order (nil variables are no-ops). -/
def makeMeshCleanup (posarr colarr nrmarr : Option AttribArray)
    (texcarr : List (Option AttribArray)) (elemarr : Option ElementArray)
    (st : GLState) : GLState :=
  elemClean elemarr
    (texcarr.foldl (fun s a => attribClean a s)
      (attribClean nrmarr (attribClean colarr (attribClean posarr st))))

/-- The texcoord loop of MakeMesh (src/asset/meshutil.go lines 71-79):
build one 2-component array per texcoord slice; `built` accumulates the
slots filled so far (`texcarr[i]` is left nil by a failed assignment).  A
nil entry makes checkSlice panic. -/
def makeMeshTexLoop (name : String) (i : Nat)
    (built : List (Option AttribArray)) :
    List (Option GoData) → GLState →
      GLState × List (Option AttribArray) × Res Unit
  | [], st => (st, built, .ok ())
  | none :: _, st =>
    (st, built, .fatal ("MakeMesh error: Mesh " ++ name ++ " " ++ texName i ++
      " data is not a slice"))
  | some d :: rest, st =>
    match newAttribArray (texName i) 2 d STATIC_DRAW st with
    | (st1, .fatal msg) => (st1, built, .fatal msg)
    | (st1, .err msg) => (st1, built ++ [none], .err msg)
    | (st1, .ok arr) => makeMeshTexLoop name (i + 1) (built ++ [some arr]) rest st1

/-- Tail of MakeMesh after every channel is built (src/asset/meshutil.go
lines 91-101): AddArrays over (pos, color, normal), then over the
texcoords, then attach the element array and primitive. -/
def makeMeshFinish (prim : Nat) (mesh : Mesh)
    (posarr colarr nrmarr : Option AttribArray)
    (texcarr : List (Option AttribArray)) (elemarr : ElementArray)
    (st : GLState) : GLState × Res Mesh :=
  match addArrays mesh [posarr, colarr, nrmarr] with
  | (_, some msg) =>
    (makeMeshCleanup posarr colarr nrmarr texcarr (some elemarr) st, .err msg)
  | (mesh1, none) =>
    match addArrays mesh1 texcarr with
    | (_, some msg) =>
      (makeMeshCleanup posarr colarr nrmarr texcarr (some elemarr) st, .err msg)
    | (mesh2, none) =>
      (st, .ok { mesh2 with Elements := some elemarr, Primitive := prim })

/-- Element-array stage of MakeMesh (src/asset/meshutil.go lines 80-89):
nil elems panics; a failed NewElementArray leaves `elemarr` nil and runs
the deferred cleanup. -/
def makeMeshElems (name : String) (prim : Nat) (mesh : Mesh)
    (posarr colarr nrmarr : Option AttribArray)
    (texcarr : List (Option AttribArray)) (elems : Option ElemData)
    (st : GLState) : GLState × Res Mesh :=
  match elems with
  | none => (st, .fatal ("MakeMesh error: no element array for Mesh " ++ name))
  | some ed =>
    match newElementArray ed STATIC_DRAW st with
    | (st1, .fatal msg) => (st1, .fatal msg)
    | (st1, .err msg) =>
      (makeMeshCleanup posarr colarr nrmarr texcarr none st1, .err msg)
    | (st1, .ok elemarr) =>
      makeMeshFinish prim mesh posarr colarr nrmarr texcarr elemarr st1

/-- Texcoord stage of MakeMesh. -/
def makeMeshTex (name : String) (prim : Nat) (mesh : Mesh)
    (posarr colarr nrmarr : Option AttribArray)
    (texcoords : List (Option GoData)) (elems : Option ElemData)
    (st : GLState) : GLState × Res Mesh :=
  match makeMeshTexLoop name 0 [] texcoords st with
  | (st1, _, .fatal msg) => (st1, .fatal msg)
  | (st1, built, .err msg) =>
    (makeMeshCleanup posarr colarr nrmarr built none st1, .err msg)
  | (st1, built, .ok _) =>
    makeMeshElems name prim mesh posarr colarr nrmarr built elems st1

/-- Normal-channel stage of MakeMesh (src/asset/meshutil.go lines 63-70),
translated literally from the source: when `nrms` is present, checkSlice
is called on `cols` (line 64), and the array built from the normal data is
assigned to the `colarr` variable (line 66), so the normal-channel slot
`nrmarr` stays nil and the previously built color array is no longer
reachable from any variable; on a failed build `colarr` is overwritten
with nil before the deferred cleanup runs. -/
def makeMeshNrms (name : String) (prim : Nat) (mesh : Mesh)
    (posarr colarr : Option AttribArray) (cols nrms : Option GoData)
    (texcoords : List (Option GoData)) (elems : Option ElemData)
    (st : GLState) : GLState × Res Mesh :=
  match nrms with
  | none => makeMeshTex name prim mesh posarr colarr none texcoords elems st
  | some nd =>
    match cols with
    | none =>
      (st, .fatal ("MakeMesh error: Mesh " ++ name ++ " normal data is not a slice"))
    | some _ =>
      match newAttribArray "normal" 3 nd STATIC_DRAW st with
      | (st1, .fatal msg) => (st1, .fatal msg)
      | (st1, .err msg) =>
        (makeMeshCleanup posarr none none [] none st1, .err msg)
      | (st1, .ok narr) =>
        makeMeshTex name prim mesh posarr (some narr) none texcoords elems st1

/-- Color-channel stage of MakeMesh (src/asset/meshutil.go lines 55-62). -/
def makeMeshCols (name : String) (prim : Nat) (mesh : Mesh)
    (posarr : Option AttribArray) (cols nrms : Option GoData)
    (texcoords : List (Option GoData)) (elems : Option ElemData)
    (st : GLState) : GLState × Res Mesh :=
  match cols with
  | none => makeMeshNrms name prim mesh posarr none none nrms texcoords elems st
  | some cd =>
    match newAttribArray "color" 4 cd STATIC_DRAW st with
    | (st1, .fatal msg) => (st1, .fatal msg)
    | (st1, .err msg) =>
      (makeMeshCleanup posarr none none [] none st1, .err msg)
    | (st1, .ok carr) =>
      makeMeshNrms name prim mesh posarr (some carr) (some cd) nrms texcoords
        elems st1

/-- MakeMesh (src/asset/meshutil.go lines 22-102): composite mesh builder
over a mandatory pos channel, optional color and normal channels, texcoord
channels, and a mandatory element array; the stages above are the
successive channel sections of its body, each error return running the
deferred cleanup over the pointer variables as they stand at that return
(a panic leaves `err` nil, so the deferred cleanup does nothing then). -/
def makeMesh (name : String) (dims : Int) (prim : Nat)
    (pos cols nrms : Option GoData) (texcoords : List (Option GoData))
    (elems : Option ElemData) (st : GLState) : GLState × Res Mesh :=
  match pos with
  | none =>
    (st, .fatal ("MakeMesh error: Mesh " ++ name ++ " must have a pos attribute"))
  | some pd =>
    match newAttribArray "pos" dims pd STATIC_DRAW st with
    | (st1, .fatal msg) => (st1, .fatal msg)
    | (st1, .err msg) => (st1, .err msg)
    | (st1, .ok parr) =>
      makeMeshCols name prim (newMesh name) (some parr) cols nrms texcoords
        elems st1

/-- ShaderSet (src/unnamed/part_002 lines 14-18): the stage-set tuple
keying linked programs; an absent geometry stage is the zero value 0. -/
structure ShaderSet where
  Vs : Nat
  Fs : Nat
  Gs : Nat
  deriving DecidableEq

/-- The five maps owned by one Manager (src/unnamed/part_002 lines 21-27). -/
structure ManagerFrame where
  Materials : List (String × Material)
  Meshes    : List (String × Mesh)
  Shaders   : List (String × Nat)
  Programs  : List (ShaderSet × Nat)
  Textures  : List (String × Texture)
  deriving DecidableEq

/-- The maps of a freshly constructed Manager (NewManager). -/
def emptyFrame : ManagerFrame := ⟨[], [], [], [], []⟩

/-- Manager (src/unnamed/part_002 lines 20-29): its own maps plus the
chain of ancestor frames (the `Parent` pointer chain flattened; the spec,
section 4.6, requires the chain to be acyclic and finite, and lookups
walk it outward).  An empty `parents` list is a nil Parent. -/
structure Manager where
  locals  : ManagerFrame
  parents : List ManagerFrame
  deriving DecidableEq

/-- GetMaterial recursion (src/unnamed/part_002 lines 60-70) over a frame
chain: local map first, then the parent chain, not-found at the end. -/
def framesGetMaterial : List ManagerFrame → String → Option Material
  | [], _ => none
  | f :: p, name =>
    match mapLookup f.Materials name with
    | some m => some m
    | none => framesGetMaterial p name

/-- Manager.GetMaterial: found means some. -/
def Manager.getMaterial (am : Manager) (name : String) : Option Material :=
  framesGetMaterial (am.locals :: am.parents) name

/-- GetMesh recursion (src/unnamed/part_002 lines 87-97). -/
def framesGetMesh : List ManagerFrame → String → Option Mesh
  | [], _ => none
  | f :: p, name =>
    match mapLookup f.Meshes name with
    | some m => some m
    | none => framesGetMesh p name

/-- Manager.GetMesh. -/
def Manager.getMesh (am : Manager) (name : String) : Option Mesh :=
  framesGetMesh (am.locals :: am.parents) name

/-- GetShader recursion (src/unnamed/part_002 lines 114-124). -/
def framesGetShader : List ManagerFrame → String → Option Nat
  | [], _ => none
  | f :: p, name =>
    match mapLookup f.Shaders name with
    | some s => some s
    | none => framesGetShader p name

/-- Manager.GetShader. -/
def Manager.getShader (am : Manager) (name : String) : Option Nat :=
  framesGetShader (am.locals :: am.parents) name

/-- GetProgram recursion (src/unnamed/part_002 lines 165-175), keyed by
the stage-set tuple. -/
def framesGetProgram : List ManagerFrame → ShaderSet → Option Nat
  | [], _ => none
  | f :: p, set =>
    match mapLookup f.Programs set with
    | some s => some s
    | none => framesGetProgram p set

/-- Manager.GetProgram. -/
def Manager.getProgram (am : Manager) (set : ShaderSet) : Option Nat :=
  framesGetProgram (am.locals :: am.parents) set

/-- GetTexture recursion (src/unnamed/part_002 lines 242-252). -/
def framesGetTexture : List ManagerFrame → String → Option Texture
  | [], _ => none
  | f :: p, name =>
    match mapLookup f.Textures name with
    | some t => some t
    | none => framesGetTexture p name

/-- Manager.GetTexture. -/
def Manager.getTexture (am : Manager) (name : String) : Option Texture :=
  framesGetTexture (am.locals :: am.parents) name

/-- Manager.AddMaterial (src/unnamed/part_002 lines 47-56): the duplicate
check reads only the local Materials map. -/
def Manager.addMaterial (am : Manager) (m : Material) : Manager × Option String :=
  match mapLookup am.locals.Materials m.Name with
  | some _ =>
    (am, some ("asset.Manager.AddMaterial error: material " ++ m.Name ++
      " already exists"))
  | none =>
    ({ am with locals :=
        { am.locals with Materials := mapInsert am.locals.Materials m.Name m } },
     none)

/-- Manager.AddMesh (src/unnamed/part_002 lines 74-83): local check only. -/
def Manager.addMesh (am : Manager) (m : Mesh) : Manager × Option String :=
  match mapLookup am.locals.Meshes m.Name with
  | some _ =>
    (am, some ("asset.Manager.AddMesh error: Mesh " ++ m.Name ++
      " already exists"))
  | none =>
    ({ am with locals :=
        { am.locals with Meshes := mapInsert am.locals.Meshes m.Name m } },
     none)

/-- Manager.AddTexture (src/unnamed/part_002 lines 230-238): local check
only. -/
def Manager.addTexture (am : Manager) (t : Texture) : Manager × Option String :=
  match mapLookup am.locals.Textures t.Name with
  | some _ =>
    (am, some ("asset.Manager.AddTexture error: texture " ++ t.Name ++
      " already exists"))
  | none =>
    ({ am with locals :=
        { am.locals with Textures := mapInsert am.locals.Textures t.Name t } },
     none)

/-- Manager.AddShader (src/unnamed/part_002 lines 101-110): the duplicate
check calls GetShader, the transitive local-then-parent lookup. -/
def Manager.addShader (am : Manager) (name : String) (shader : Nat) :
    Manager × Option String :=
  match am.getShader name with
  | some _ =>
    (am, some ("asset.Manager.AddShader error: Shader " ++ name ++
      " already exists"))
  | none =>
    ({ am with locals :=
        { am.locals with Shaders := mapInsert am.locals.Shaders name shader } },
     none)

/-- Manager.AddProgram (src/unnamed/part_002 lines 152-161): the duplicate
check calls GetProgram, the transitive local-then-parent lookup. -/
def Manager.addProgram (am : Manager) (set : ShaderSet) (prog : Nat) :
    Manager × Option String :=
  match am.getProgram set with
  | some _ =>
    (am, some "asset.Manager.AddProgram error: Program already exists")
  | none =>
    ({ am with locals :=
        { am.locals with Programs := mapInsert am.locals.Programs set prog } },
     none)

/-- Manager.LoadShader (src/unnamed/part_002 lines 130-148): reuse an
existing handle (transitive lookup), else compile via newShader and
register locally (the AddShader error value is discarded by the source).
Reading the source file and compiling are external collaborators, modeled
as succeeding with an empty info log. -/
def Manager.loadShader (am : Manager) (typ : Nat) (name : String)
    (st : GLState) : Nat × Manager × GLState :=
  match am.getShader name with
  | some s => (s, am, st)
  | none =>
    match glCreateShader st with
    | (s, st1) => (s, (am.addShader name s).1, st1)

/-- Manager.LoadProgram (src/unnamed/part_002 lines 182-226): resolve the
vertex and fragment stages, the geometry stage only for a non-empty file
name (the stage-set zero value keeps Gs = 0); reuse a program registered
for that stage-set (transitive lookup), else create, attach, link (the
link succeeds with an empty info log on the modeled device) and register
keyed by the stage-set. -/
def Manager.loadProgram (am : Manager) (vfile ffile gfile : String)
    (st : GLState) : Nat × Manager × GLState :=
  match am.loadShader GL_VERTEX_SHADER vfile st with
  | (vs, am1, st1) =>
    match am1.loadShader GL_FRAGMENT_SHADER ffile st1 with
    | (fs, am2, st2) =>
      match (if 0 < gfile.length then am2.loadShader GL_GEOMETRY_SHADER gfile st2
             else (0, am2, st2)) with
      | (gs, am3, st3) =>
        match am3.getProgram ⟨vs, fs, gs⟩ with
        | some p => (p, am3, st3)
        | none =>
          match glCreateProgram st3 with
          | (p, st4) => (p, (am3.addProgram ⟨vs, fs, gs⟩ p).1, glLinkProgram st4)

theorem mapLookup_insert_self {κ β : Type} [DecidableEq κ]
    (m : List (κ × β)) (k : κ) (v : β) :
    mapLookup (mapInsert m k v) k = some v := by
  simp [mapInsert, mapLookup]

theorem mapLookup_insert_other {κ β : Type} [DecidableEq κ]
    (m : List (κ × β)) (k k' : κ) (v : β) (h : ¬ k = k') :
    mapLookup (mapInsert m k v) k' = mapLookup m k' := by
  simp [mapInsert, mapLookup, h]

/-- C1: the specification claims that when a later channel of MakeMesh
fails after a color channel and a normal channel were both successfully
built, the color-channel buffer is among the buffers destroyed before the
error is returned.  The code assigns the normal-channel array to the
`colarr` variable (src/asset/meshutil.go line 66), so the deferred cleanup
can no longer reach the color buffer: with pos, color and normal data all
valid and an empty element slice, MakeMesh returns the element-array
error, the color channel was built as buffer 2, and buffer 2 is exactly
the buffer that remains allocated on the device after the cleanup. -/
theorem makeMesh_partial_failure_leaks_color_buffer :
    (newAttribArray "color" 4 (GoData.float32Slice 16) STATIC_DRAW
        ⟨2, [1], 0⟩).2 =
      Res.ok ⟨"color", 4, GLType.float, 2, 16, 16⟩ ∧
    makeMesh "m" 2 GL_TRIANGLES (some (GoData.float32Slice 8))
        (some (GoData.float32Slice 16)) (some (GoData.float32Slice 12)) []
        (some (ElemData.uint8Slice 0 0)) GLState.init =
      (⟨4, [2], 0⟩, Res.err "asset.NewElementArray error: data length is zero") := by
  constructor <;> rfl

/-- C2: the specification claims that Mesh.DrawUniforms sets a uniform
exactly when the material registered a resolved location for its name and
silently skips unregistered names.  The location is read with plain Go map
indexing, whose zero value for a missing key is 0, and the skip test is
`loc < 0` (src/unnamed/part_001 lines 92-94), so a name the material never
registered is NOT skipped: with an empty UniformLocs table the call issues
gl.Uniform1i at location 0 for the unregistered name. -/
theorem drawUniforms_sets_unregistered_uniform_at_location_zero :
    mapLookup (Material.UniformLocs ⟨"mat", [], [], 7, [], []⟩) "mvp" = none ∧
    drawUniforms ⟨"q", [], some ⟨GLType.unsignedByte, 9, 6, 6⟩, 5, GL_TRIANGLES, 4⟩
        ⟨"mat", [], [], 7, [], []⟩ [("mvp", UniformValue.int32 5)] =
      Res.ok [GLCall.useProgram 7, GLCall.uniform1i 0 5,
        GLCall.bindVertexArray 5,
        GLCall.drawElements GL_TRIANGLES 6 GLType.unsignedByte,
        GLCall.bindVertexArray 0, GLCall.useProgram 0] := by
  constructor <;> rfl

/-- C3 counterexample: the claim says Add(Kind) fails exactly when the
local map already has the key, so a name held only by the parent must not
make registration fail.  For shaders it does: a child whose local Shaders
map is empty, under a parent holding shader s, gets an AlreadyExists
error from AddShader because the duplicate check uses the transitive
GetShader lookup (src/unnamed/part_002 line 102). -/
theorem addShader_fails_on_name_held_only_by_parent :
    mapLookup (Manager.mk emptyFrame
        [{ emptyFrame with Shaders := [("s", 1)] }]).locals.Shaders "s" = none ∧
    (Manager.addShader
        ⟨emptyFrame, [{ emptyFrame with Shaders := [("s", 1)] }]⟩ "s" 2).2 =
      some "asset.Manager.AddShader error: Shader s already exists" := by
  constructor <;> rfl

/-- C3 amended: AddMaterial, AddMesh and AddTexture fail exactly when the
local map of the Manager itself holds the name (a name held only by an
ancestor does not block registration), while AddShader and AddProgram
check the transitive local-then-parent lookup and therefore also fail
when only an ancestor holds the name or stage-set. -/
theorem manager_add_locality :
    (∀ (am : Manager) (m : Material),
      ((am.addMaterial m).2).isSome = (mapLookup am.locals.Materials m.Name).isSome) ∧
    (∀ (am : Manager) (m : Mesh),
      ((am.addMesh m).2).isSome = (mapLookup am.locals.Meshes m.Name).isSome) ∧
    (∀ (am : Manager) (t : Texture),
      ((am.addTexture t).2).isSome = (mapLookup am.locals.Textures t.Name).isSome) ∧
    (∀ (am : Manager) (name : String) (s : Nat),
      ((am.addShader name s).2).isSome = (am.getShader name).isSome) ∧
    (∀ (am : Manager) (set : ShaderSet) (p : Nat),
      ((am.addProgram set p).2).isSome = (am.getProgram set).isSome) := by
  refine ⟨?_, ?_, ?_, ?_, ?_⟩
  · intro am m
    cases h : mapLookup am.locals.Materials m.Name <;>
      simp [Manager.addMaterial, h]
  · intro am m
    cases h : mapLookup am.locals.Meshes m.Name <;>
      simp [Manager.addMesh, h]
  · intro am t
    cases h : mapLookup am.locals.Textures t.Name <;>
      simp [Manager.addTexture, h]
  · intro am name s
    cases h : am.getShader name <;>
      simp [Manager.addShader, h]
  · intro am set p
    cases h : am.getProgram set <;>
      simp [Manager.addProgram, h]

/-- C4 counterexample: the claim says an Update payload of a different
element type than creation always fails with TypeMismatch, regardless of
length, including an empty payload.  The code returns early with a nil
error on empty data before any type inspection (src/asset/vertexarray.go
lines 137-140): updating a float32 array with an empty float64 slice
succeeds as a no-op that sets the length to 0. -/
theorem attribUpdate_empty_mismatched_type_succeeds :
    attribUpdate ⟨"a", 2, GLType.float, 1, 4, 4⟩ (GoData.float64Slice 0) =
      Res.ok ⟨"a", 2, GLType.float, 1, 0, 4⟩ := by
  rfl

/-- C4 amended: an empty Update payload succeeds as a no-op that sets the
length to 0 regardless of its element type; a non-empty payload within
capacity whose element type differs from the creation type fails fatally
(panic), not via a returned error; a payload whose pre-expansion element
count exceeds the capacity fails fatally (panic) - for vector payloads
the capacity check uses the vector count, before expansion. -/
theorem attribUpdate_behaviour :
    (∀ (arr : AttribArray) (d : GoData), dataLen d = 0 →
      attribUpdate arr d = Res.ok { arr with Len := 0 }) ∧
    (∀ (arr : AttribArray) (d : GoData) (lx : Int) (typ : GLType),
      0 < dataLen d → (dataLen d : Int) ≤ arr.Cap →
      expandData arr.Dims d = Res.ok (lx, typ) → arr.Typ ≠ typ →
      attribUpdate arr d =
        Res.fatal "asset.AttribArray.Update error: data type does not match array type") ∧
    (∀ (arr : AttribArray) (d : GoData), 0 < dataLen d →
      arr.Cap < (dataLen d : Int) →
      attribUpdate arr d =
        Res.fatal "asset.AttribArray.Update error: data length is longer than buffer") := by
  refine ⟨?_, ?_, ?_⟩
  · intro arr d h
    simp [attribUpdate, h]
  · intro arr d lx typ h0 hcap hexp htyp
    have hne : ((dataLen d : Int) = 0) = False := by
      simp; omega
    have hgt : ((dataLen d : Int) > arr.Cap) = False := by
      simp; omega
    simp [attribUpdate, hne, hgt, hexp, htyp]
  · intro arr d h0 hcap
    have hne : ((dataLen d : Int) = 0) = False := by
      simp; omega
    have hgt : ((dataLen d : Int) > arr.Cap) = True := by
      simp; omega
    simp only [attribUpdate, hne, if_false, hgt, if_true]

/-- C4 witness: the three parts of the amended Update behaviour at
concrete inputs - an empty uint8 payload on a float array, a non-empty
float64 payload on a float32 array, and an oversized float32 payload. -/
theorem attribUpdate_behaviour_witness :
    attribUpdate ⟨"a", 2, GLType.float, 1, 4, 4⟩ (GoData.uint8Slice 0) =
      Res.ok ⟨"a", 2, GLType.float, 1, 0, 4⟩ ∧
    attribUpdate ⟨"a", 2, GLType.float, 1, 4, 4⟩ (GoData.float64Slice 2) =
      Res.fatal "asset.AttribArray.Update error: data type does not match array type" ∧
    attribUpdate ⟨"a", 2, GLType.float, 1, 4, 4⟩ (GoData.float32Slice 6) =
      Res.fatal "asset.AttribArray.Update error: data length is longer than buffer" := by
  refine ⟨?_, ?_, ?_⟩
  · exact attribUpdate_behaviour.1 _ (GoData.uint8Slice 0) (by decide)
  · exact attribUpdate_behaviour.2.1 _ (GoData.float64Slice 2) 2 GLType.double
      (by decide) (by decide) (by decide) (by decide)
  · exact attribUpdate_behaviour.2.2 _ (GoData.float32Slice 6) (by decide)
      (by decide)

/-- C5 counterexample: the claim says a vector-typed payload whose
component count disagrees with the declared dimensions makes
NewAttribArray fail by RETURNING an InvalidDimensions error.  The code
panics instead (src/asset/vertexarray.go line 65): a non-empty Vec2
payload with dims = 3 yields a fatal dimension-mismatch panic, not a
returned error. -/
theorem newAttribArray_vec_dim_mismatch_panics :
    newAttribArray "a" 3 (GoData.vec2f32Slice 2) STATIC_DRAW GLState.init =
      (GLState.init, Res.fatal "AttribArray error: dimension mismatch") := by
  rfl

/-- C5 amended: empty data returns the zero-length error with no
allocation; a non-empty payload whose expanded scalar count is not a
multiple of the (non-zero) dimensions returns the InvalidDimensions error
and allocates no backing store; a non-empty vector payload whose
component count disagrees with the dimensions fails fatally (panic), with
no allocation; a valid payload succeeds with length = capacity = expanded
element count, one newly allocated buffer, and element group count equal
to the truncated quotient count / dimensions. -/
theorem newAttribArray_behaviour :
    (∀ (name : String) (dims : Int) (d : GoData) (u : Nat) (st : GLState),
      dataLen d = 0 →
      newAttribArray name dims d u st =
        (st, Res.err ("AttribArray error: " ++ name ++ " length is zero"))) ∧
    (∀ (name : String) (dims : Int) (d : GoData) (u : Nat) (st : GLState)
       (lx : Int) (typ : GLType),
      0 < dataLen d → expandData dims d = Res.ok (lx, typ) →
      dims ≠ 0 → lx.tmod dims ≠ 0 →
      newAttribArray name dims d u st = (st, Res.err (attribLenError name lx dims))) ∧
    (∀ (name : String) (dims : Int) (d : GoData) (u : Nat) (st : GLState)
       (msg : String),
      0 < dataLen d → expandData dims d = Res.fatal msg →
      newAttribArray name dims d u st = (st, Res.fatal msg)) ∧
    (∀ (name : String) (dims : Int) (d : GoData) (u : Nat) (st : GLState)
       (lx : Int) (typ : GLType),
      0 < dataLen d → expandData dims d = Res.ok (lx, typ) →
      dims ≠ 0 → lx.tmod dims = 0 →
      newAttribArray name dims d u st =
        ({ st with nextName := st.nextName + 1,
                   liveBufs := st.nextName :: st.liveBufs },
         Res.ok ⟨name, dims, typ, st.nextName, lx, lx⟩) ∧
      AttribArray.attribs ⟨name, dims, typ, st.nextName, lx, lx⟩ =
        lx.tdiv dims) := by
  refine ⟨?_, ?_, ?_, ?_⟩
  · intro name dims d u st h
    simp [newAttribArray, h]
  · intro name dims d u st lx typ h0 hexp hdz hmod
    have hne : ((dataLen d : Int) = 0) = False := by simp; omega
    simp [newAttribArray, hne, hexp, hdz, hmod]
  · intro name dims d u st msg h0 hexp
    have hne : ((dataLen d : Int) = 0) = False := by simp; omega
    simp [newAttribArray, hne, hexp]
  · intro name dims d u st lx typ h0 hexp hdz hmod
    have hne : ((dataLen d : Int) = 0) = False := by simp; omega
    constructor
    · simp [newAttribArray, hne, hexp, hdz, hmod, glGenBuffer]
    · rfl

/-- C5 witness: the four parts of the amended NewAttribArray behaviour at
concrete inputs - empty data, a 7-element float32 payload with dims = 2,
a Vec3 payload with dims = 2, and a valid 6-element float32 payload with
dims = 2. -/
theorem newAttribArray_behaviour_witness :
    newAttribArray "e" 2 (GoData.float32Slice 0) STATIC_DRAW GLState.init =
      (GLState.init, Res.err "AttribArray error: e length is zero") ∧
    newAttribArray "o" 2 (GoData.float32Slice 7) STATIC_DRAW GLState.init =
      (GLState.init, Res.err (attribLenError "o" 7 2)) ∧
    newAttribArray "v" 2 (GoData.vec3f32Slice 2) STATIC_DRAW GLState.init =
      (GLState.init, Res.fatal "AttribArray error: dimension mismatch") ∧
    (newAttribArray "g" 2 (GoData.float32Slice 6) STATIC_DRAW GLState.init =
      (⟨2, [1], 0⟩, Res.ok ⟨"g", 2, GLType.float, 1, 6, 6⟩) ∧
     AttribArray.attribs ⟨"g", 2, GLType.float, 1, 6, 6⟩ = Int.tdiv 6 2) := by
  refine ⟨?_, ?_, ?_, ?_⟩
  · exact newAttribArray_behaviour.1 "e" 2 (GoData.float32Slice 0) STATIC_DRAW
      GLState.init (by decide)
  · exact newAttribArray_behaviour.2.1 "o" 2 (GoData.float32Slice 7) STATIC_DRAW
      GLState.init 7 GLType.float (by decide) (by decide) (by decide) (by decide)
  · exact newAttribArray_behaviour.2.2.1 "v" 2 (GoData.vec3f32Slice 2)
      STATIC_DRAW GLState.init "AttribArray error: dimension mismatch"
      (by decide) (by decide)
  · exact newAttribArray_behaviour.2.2.2 "g" 2 (GoData.float32Slice 6)
      STATIC_DRAW GLState.init 6 GLType.float (by decide) (by decide)
      (by decide) (by decide)

/-- C6 counterexample: the claim says LoadSubImage fails exactly when the
region [offset, offset + size) lies outside [0, W) x [0, H), so an offset
with a negative component must be rejected.  The code checks only the
upper bounds (src/unnamed/part_000 line 67): a 1 x 1 image at offset
(-1, 0) into a 4 x 4 texture is accepted. -/
theorem loadSubImage_accepts_negative_offset :
    loadSubImage ⟨"t", 1, 2, 4, 4⟩ ⟨1, 1⟩ ⟨-1, 0⟩ 0 = none := by
  rfl

/-- C6 amended: LoadSubImage fails with the out-of-bounds error exactly
when the image width plus the x offset exceeds the texture width or the
image height plus the y offset exceeds the texture height; the lower
bounds are not checked, so negative offsets satisfying those upper bounds
are accepted; in particular an upload at offset (0, 0) whose image size
equals the texture size succeeds. -/
theorem loadSubImage_bounds :
    (∀ (t : Texture) (img : GoImage) (off : GoPoint) (level : Int),
      (loadSubImage t img off level).isSome =
        (img.Dx + off.X > t.W ∨ img.Dy + off.Y > t.H : Bool)) ∧
    (∀ (t : Texture) (level : Int),
      loadSubImage t ⟨t.W, t.H⟩ ⟨0, 0⟩ level = none) := by
  constructor
  · intro t img off level
    by_cases h : img.Dx + off.X > t.W ∨ img.Dy + off.Y > t.H
    · simp [loadSubImage, h]
    · simp [loadSubImage, h]
  · intro t level
    have h : ¬ (t.W + 0 > t.W ∨ t.H + 0 > t.H) := by omega
    simp only [loadSubImage]
    split
    · omega
    · rfl

theorem addArrays_append (m : Mesh) (l1 l2 : List (Option AttribArray))
    (h : (addArrays m l1).2 = none) :
    addArrays m (l1 ++ l2) = addArrays (addArrays m l1).1 l2 := by
  induction l1 generalizing m with
  | nil => simp [addArrays]
  | cons hd tl ih =>
    cases hd with
    | none =>
      simp only [addArrays] at h ⊢
      exact ih m h
    | some arr =>
      by_cases h1 : m.Vertices = -1
      · simp only [List.cons_append, addArrays, h1, if_true] at h ⊢
        exact ih _ h
      · by_cases h2 : arr.attribs = m.Vertices
        · have h2' : (arr.attribs ≠ m.Vertices) = False := by simp [h2]
          simp only [List.cons_append, addArrays, h1, if_false, h2',
            if_true] at h ⊢
          exact ih _ h
        · exfalso
          simp [addArrays, h1, h2] at h

theorem addArrays_name (m : Mesh) (l : List (Option AttribArray)) :
    (addArrays m l).1.Name = m.Name := by
  induction l generalizing m with
  | nil => simp [addArrays]
  | cons hd tl ih =>
    cases hd with
    | none => simpa [addArrays] using ih m
    | some arr =>
      by_cases h1 : m.Vertices = -1
      · simpa [addArrays, h1] using ih _
      · by_cases h2 : arr.attribs = m.Vertices
        · have h2' : (arr.attribs ≠ m.Vertices) = False := by simp [h2]
          simpa [addArrays, h1, h2'] using ih _
        · simp [addArrays, h1, h2]

/-- C7: the Mesh.AddArrays vertex-count invariant.  Let a call process a
prefix `pre` without error and let `arr` be the next non-nil channel.
If the vertex count is still unset (-1), `arr` sets it to its element
group count and is registered.  If the count is set and `arr` agrees, the
call continues on a mesh with the same vertex count in which `arr` is
registered under its name, overwriting any same-named channel.  If `arr`
disagrees, the whole call returns the InconsistentVertexCount error naming
the mesh, and the resulting mesh is exactly the state reached before the
mismatching channel - vertex count and registered channels unchanged by
the failing step.  (Go panics on a zero Dims divisor inside Attribs, so
the focal channel is assumed to have positive Dims.) -/
theorem addArrays_vertex_invariant :
    (∀ (m : Mesh) (pre : List (Option AttribArray)) (arr : AttribArray)
       (rest : List (Option AttribArray)),
      0 < arr.Dims →
      (addArrays m pre).2 = none →
      (addArrays m pre).1.Vertices = -1 →
      addArrays m (pre ++ (some arr :: rest)) =
        addArrays
          { (addArrays m pre).1 with
              Vertices := arr.attribs,
              Attribs := mapInsert (addArrays m pre).1.Attribs arr.Name arr }
          rest) ∧
    (∀ (m : Mesh) (pre : List (Option AttribArray)) (arr : AttribArray)
       (rest : List (Option AttribArray)),
      0 < arr.Dims →
      (addArrays m pre).2 = none →
      (addArrays m pre).1.Vertices ≠ -1 →
      arr.attribs = (addArrays m pre).1.Vertices →
      addArrays m (pre ++ (some arr :: rest)) =
        addArrays
          { (addArrays m pre).1 with
              Attribs := mapInsert (addArrays m pre).1.Attribs arr.Name arr }
          rest ∧
      mapLookup (mapInsert (addArrays m pre).1.Attribs arr.Name arr) arr.Name =
        some arr) ∧
    (∀ (m : Mesh) (pre : List (Option AttribArray)) (arr : AttribArray)
       (rest : List (Option AttribArray)),
      0 < arr.Dims →
      (addArrays m pre).2 = none →
      (addArrays m pre).1.Vertices ≠ -1 →
      arr.attribs ≠ (addArrays m pre).1.Vertices →
      addArrays m (pre ++ (some arr :: rest)) =
        ((addArrays m pre).1, some (meshInconsistentError m.Name))) := by
  refine ⟨?_, ?_, ?_⟩
  · intro m pre arr rest _ hok hv
    rw [addArrays_append m pre (some arr :: rest) hok]
    simp [addArrays, hv]
  · intro m pre arr rest _ hok hv heq
    constructor
    · rw [addArrays_append m pre (some arr :: rest) hok]
      have h2' : (arr.attribs ≠ (addArrays m pre).1.Vertices) = False := by
        simp [heq]
      simp [addArrays, hv, h2']
    · exact mapLookup_insert_self _ _ _
  · intro m pre arr rest _ hok hv hne
    rw [addArrays_append m pre (some arr :: rest) hok]
    have hname := addArrays_name m pre
    simp [addArrays, hv, hne, hname]

/-- C7 witness: a mesh given channels with element group counts 4 and 4
succeeds with vertex count 4; a third channel of count 3 makes the call
return the InconsistentVertexCount error with the mesh state as after the
first two channels. -/
theorem addArrays_vertex_invariant_witness :
    addArrays (newMesh "w")
      ([some ⟨"pos", 2, GLType.float, 1, 8, 8⟩,
        some ⟨"color", 4, GLType.float, 2, 16, 16⟩] ++
       (some ⟨"normal", 3, GLType.float, 3, 9, 9⟩ :: [])) =
      ((addArrays (newMesh "w")
          [some ⟨"pos", 2, GLType.float, 1, 8, 8⟩,
           some ⟨"color", 4, GLType.float, 2, 16, 16⟩]).1,
       some (meshInconsistentError "w")) ∧
    (addArrays (newMesh "w")
        [some ⟨"pos", 2, GLType.float, 1, 8, 8⟩,
         some ⟨"color", 4, GLType.float, 2, 16, 16⟩]).1.Vertices = 4 := by
  constructor
  · exact addArrays_vertex_invariant.2.2 (newMesh "w")
      [some ⟨"pos", 2, GLType.float, 1, 8, 8⟩,
       some ⟨"color", 4, GLType.float, 2, 16, 16⟩]
      ⟨"normal", 3, GLType.float, 3, 9, 9⟩ [] (by decide) (by decide)
      (by decide) (by decide)
  · rfl

/-- C8: Manager shadowing for materials.  For a child Manager whose local
Materials map has no entry for the name and whose parent chain resolves
the name to the parent instance: GetMaterial on the child returns the
parent instance (found); after the child locally adds its own material of
that name, GetMaterial on the child returns the child instance, the add
succeeded, and the parent chain of the child - hence the parent Manager
and its map - is unchanged. -/
theorem manager_getMaterial_shadowing
    (cf pf : ManagerFrame) (prest : List ManagerFrame)
    (matP matC : Material) (name : String)
    (hlocal : mapLookup cf.Materials name = none)
    (hparent : (Manager.mk pf prest).getMaterial name = some matP)
    (hname : matC.Name = name) :
    (Manager.mk cf (pf :: prest)).getMaterial name = some matP ∧
    ((Manager.mk cf (pf :: prest)).addMaterial matC).2 = none ∧
    ((Manager.mk cf (pf :: prest)).addMaterial matC).1.getMaterial name =
      some matC ∧
    ((Manager.mk cf (pf :: prest)).addMaterial matC).1.parents =
      (Manager.mk cf (pf :: prest)).parents := by
  subst hname
  have hpar : framesGetMaterial (pf :: prest) matC.Name = some matP := hparent
  refine ⟨?_, ?_, ?_, ?_⟩
  · have h := hpar
    simp only [Manager.getMaterial, framesGetMaterial, hlocal] at h ⊢
    exact h
  · simp [Manager.addMaterial, hlocal]
  · simp [Manager.addMaterial, hlocal, Manager.getMaterial, framesGetMaterial,
      mapLookup_insert_self]
  · simp [Manager.addMaterial, hlocal]

/-- C8 witness: a concrete parent holding material M, a child with empty
local maps - the child resolves M to the parent instance, then shadows it
locally, leaving the parent frame untouched. -/
theorem manager_getMaterial_shadowing_witness :
    (Manager.mk emptyFrame
        [{ emptyFrame with Materials := [("M", newMaterial "M")] }]).getMaterial
      "M" = some (newMaterial "M") ∧
    ((Manager.mk emptyFrame
        [{ emptyFrame with Materials := [("M", newMaterial "M")] }]).addMaterial
      { newMaterial "M" with Prog := 9 }).2 = none ∧
    ((Manager.mk emptyFrame
        [{ emptyFrame with Materials := [("M", newMaterial "M")] }]).addMaterial
      { newMaterial "M" with Prog := 9 }).1.getMaterial "M" =
      some { newMaterial "M" with Prog := 9 } ∧
    ((Manager.mk emptyFrame
        [{ emptyFrame with Materials := [("M", newMaterial "M")] }]).addMaterial
      { newMaterial "M" with Prog := 9 }).1.parents =
      (Manager.mk emptyFrame
        [{ emptyFrame with Materials := [("M", newMaterial "M")] }]).parents := by
  exact manager_getMaterial_shadowing emptyFrame
    { emptyFrame with Materials := [("M", newMaterial "M")] } [] (newMaterial "M")
    { newMaterial "M" with Prog := 9 } "M" (by rfl) (by rfl) (by rfl)

theorem framesGetShader_cons_shaders (fr : ManagerFrame) (p : List ManagerFrame)
    (n n' : String) (s : Nat) :
    framesGetShader ({ fr with Shaders := (n, s) :: fr.Shaders } :: p) n' =
      if n = n' then some s else framesGetShader (fr :: p) n' := by
  by_cases h : n = n' <;> simp [framesGetShader, mapLookup, h]

theorem getShader_programs_irrel (locals : ManagerFrame)
    (parents : List ManagerFrame) (x : List (ShaderSet × Nat)) (n : String) :
    Manager.getShader ⟨{ locals with Programs := x }, parents⟩ n =
      Manager.getShader ⟨locals, parents⟩ n := by
  rfl

theorem getProgram_shaders_irrel (locals : ManagerFrame)
    (parents : List ManagerFrame) (x : List (String × Nat)) (set : ShaderSet) :
    Manager.getProgram ⟨{ locals with Shaders := x }, parents⟩ set =
      Manager.getProgram ⟨locals, parents⟩ set := by
  rfl

theorem getProgram_insert_self (locals : ManagerFrame)
    (parents : List ManagerFrame) (set : ShaderSet) (p : Nat) :
    Manager.getProgram
      ⟨{ locals with Programs := mapInsert locals.Programs set p }, parents⟩
      set = some p := by
  simp [Manager.getProgram, framesGetProgram, mapInsert, mapLookup]

theorem loadShader_found {am : Manager} {n : String} {s : Nat}
    (h : am.getShader n = some s) (typ : Nat) (st : GLState) :
    am.loadShader typ n st = (s, am, st) := by
  simp [Manager.loadShader, h]

theorem loadShader_getShader_self (am : Manager) (typ : Nat) (n : String)
    (st : GLState) :
    (am.loadShader typ n st).2.1.getShader n =
      some (am.loadShader typ n st).1 := by
  cases h : am.getShader n with
  | some s => simp [Manager.loadShader, h]
  | none =>
    simp only [Manager.loadShader, h, glCreateShader, Manager.addShader]
    cases am with
    | mk locals parents =>
      show Manager.getShader _ n = _
      rw [show mapInsert locals.Shaders n st.nextName =
            (n, st.nextName) :: locals.Shaders from rfl]
      show framesGetShader _ n = _
      rw [framesGetShader_cons_shaders]
      simp

theorem loadShader_getShader_mono (am : Manager) (typ : Nat) (n : String)
    (st : GLState) {n' : String} {s' : Nat} (h : am.getShader n' = some s') :
    (am.loadShader typ n st).2.1.getShader n' = some s' := by
  cases hn : am.getShader n with
  | some s => simpa [Manager.loadShader, hn] using h
  | none =>
    have hne : ¬ n = n' := by
      intro e
      rw [e, h] at hn
      cases hn
    simp only [Manager.loadShader, hn, glCreateShader, Manager.addShader]
    cases am with
    | mk locals parents =>
      show Manager.getShader _ n' = _
      rw [show mapInsert locals.Shaders n st.nextName =
            (n, st.nextName) :: locals.Shaders from rfl]
      show framesGetShader _ n' = _
      rw [framesGetShader_cons_shaders]
      simpa [hne] using h

theorem loadShader_getProgram (am : Manager) (typ : Nat) (n : String)
    (st : GLState) (set : ShaderSet) :
    (am.loadShader typ n st).2.1.getProgram set = am.getProgram set := by
  cases hn : am.getShader n with
  | some s => simp [Manager.loadShader, hn]
  | none =>
    simp only [Manager.loadShader, hn, glCreateShader, Manager.addShader]
    cases am with
    | mk locals parents => exact getProgram_shaders_irrel locals parents _ set

/-- C9: program deduplication.  Two successive LoadProgram calls with the
same vertex and fragment file names and an empty geometry name, issued on
the same Manager (the second on the Manager state the first returns),
return the same program handle, the same Manager and the same device
state; in particular the device link counter does not move in the second
call - after the first call registers (or finds) the program under its
stage-set, the later call resolves the same stage-set and reuses it. -/
theorem loadProgram_dedup (am : Manager) (st : GLState) (v f : String) :
    Manager.loadProgram (Manager.loadProgram am v f "" st).2.1 v f ""
        (Manager.loadProgram am v f "" st).2.2 =
      Manager.loadProgram am v f "" st ∧
    (Manager.loadProgram (Manager.loadProgram am v f "" st).2.1 v f ""
        (Manager.loadProgram am v f "" st).2.2).2.2.linkCount =
      (Manager.loadProgram am v f "" st).2.2.linkCount := by
  rcases hv : am.loadShader GL_VERTEX_SHADER v st with ⟨vs, am1, st1⟩
  rcases hf : am1.loadShader GL_FRAGMENT_SHADER f st1 with ⟨fs, am2, st2⟩
  have hvs : am1.getShader v = some vs := by
    have h := loadShader_getShader_self am GL_VERTEX_SHADER v st
    rw [hv] at h
    exact h
  have hfs : am2.getShader f = some fs := by
    have h := loadShader_getShader_self am1 GL_FRAGMENT_SHADER f st1
    rw [hf] at h
    exact h
  have hvs2 : am2.getShader v = some vs := by
    have h := loadShader_getShader_mono am1 GL_FRAGMENT_SHADER f st1 hvs
    rw [hf] at h
    exact h
  cases hp : am2.getProgram ⟨vs, fs, 0⟩ with
  | some p =>
    have hfirst : Manager.loadProgram am v f "" st = (p, am2, st2) := by
      simp only [Manager.loadProgram, hv, hf]
      norm_num
      rw [hp]
    rw [hfirst]
    have hsecond : Manager.loadProgram am2 v f "" st2 = (p, am2, st2) := by
      simp only [Manager.loadProgram, loadShader_found hvs2 GL_VERTEX_SHADER st2,
        loadShader_found hfs GL_FRAGMENT_SHADER st2]
      norm_num
      rw [hp]
    simp [hsecond]
  | none =>
    have haddp : am2.addProgram ⟨vs, fs, 0⟩ st2.nextName =
        (⟨{ am2.locals with
              Programs := mapInsert am2.locals.Programs ⟨vs, fs, 0⟩ st2.nextName },
           am2.parents⟩, none) := by
      simp [Manager.addProgram, hp]
    have hfirst : Manager.loadProgram am v f "" st =
        (st2.nextName,
         ⟨{ am2.locals with
              Programs := mapInsert am2.locals.Programs ⟨vs, fs, 0⟩ st2.nextName },
           am2.parents⟩,
         glLinkProgram { st2 with nextName := st2.nextName + 1 }) := by
      simp only [Manager.loadProgram, hv, hf]
      norm_num
      rw [hp]
      simp [glCreateProgram, haddp]
    have ham2 : am2 = ⟨am2.locals, am2.parents⟩ := rfl
    have hvs4 : (⟨{ am2.locals with
          Programs := mapInsert am2.locals.Programs ⟨vs, fs, 0⟩ st2.nextName },
        am2.parents⟩ : Manager).getShader v = some vs := by
      rw [getShader_programs_irrel]
      rw [← ham2]
      exact hvs2
    have hfs4 : (⟨{ am2.locals with
          Programs := mapInsert am2.locals.Programs ⟨vs, fs, 0⟩ st2.nextName },
        am2.parents⟩ : Manager).getShader f = some fs := by
      rw [getShader_programs_irrel]
      rw [← ham2]
      exact hfs
    have hp4 : (⟨{ am2.locals with
          Programs := mapInsert am2.locals.Programs ⟨vs, fs, 0⟩ st2.nextName },
        am2.parents⟩ : Manager).getProgram ⟨vs, fs, 0⟩ = some st2.nextName :=
      getProgram_insert_self _ _ _ _
    rw [hfirst]
    have hsecond : Manager.loadProgram
        (⟨{ am2.locals with
              Programs := mapInsert am2.locals.Programs ⟨vs, fs, 0⟩ st2.nextName },
           am2.parents⟩ : Manager) v f ""
        (glLinkProgram { st2 with nextName := st2.nextName + 1 }) =
        (st2.nextName,
         ⟨{ am2.locals with
              Programs := mapInsert am2.locals.Programs ⟨vs, fs, 0⟩ st2.nextName },
           am2.parents⟩,
         glLinkProgram { st2 with nextName := st2.nextName + 1 }) := by
      simp only [Manager.loadProgram,
        loadShader_found hvs4 GL_VERTEX_SHADER _,
        loadShader_found hfs4 GL_FRAGMENT_SHADER _]
      norm_num
      rw [hp4]
    simp [hsecond]

/-- C10: NewElementArray records as capacity the capacity of the Go slice
passed as data (v.Cap()), not its length, so a later Update whose payload
length exceeds the originally uploaded element count but not the original
slice capacity is accepted; NewAttribArray, by contrast, always records
capacity equal to the created element count. -/
theorem elementArray_capacity_from_slice_cap :
    (∀ (l c u : Nat) (st : GLState), 0 < l → l < u → u ≤ c →
      ∃ arr : ElementArray,
        (newElementArray (ElemData.uint32Slice l c) STATIC_DRAW st).2 =
          Res.ok arr ∧
        arr.Cap = (c : Int) ∧ arr.Len = (l : Int) ∧
        elemUpdate arr (ElemData.uint32Slice u u) =
          Res.ok { arr with Len := (u : Int) }) ∧
    (∀ (name : String) (dims : Int) (d : GoData) (usage : Nat)
       (st st1 : GLState) (arr : AttribArray),
      newAttribArray name dims d usage st = (st1, Res.ok arr) →
      arr.Cap = arr.Len) := by
  constructor
  · intro l c u st h0 hlu huc
    refine ⟨⟨GLType.unsignedInt, st.nextName, (l : Int), (c : Int)⟩, ?_, rfl, rfl, ?_⟩
    · have hne : ((l : Int) = 0) = False := by simp; omega
      simp [newElementArray, hne, glGenBuffer, elemTypeOf, elemLen, elemCap]
    · have hgt : ((u : Int) > (c : Int)) = False := by simp; omega
      have hz : ((u : Int) = 0) = False := by simp; omega
      simp [elemUpdate, hgt, hz, elemTypeOf, elemLen]
  · intro name dims d usage st st1 arr h
    by_cases h0 : (dataLen d : Int) = 0
    · simp [newAttribArray, h0] at h
    · cases hexp : expandData dims d with
      | fatal m => simp [newAttribArray, h0, hexp] at h
      | err m => simp [newAttribArray, h0, hexp] at h
      | ok pr =>
        rcases pr with ⟨lx, typ⟩
        by_cases hdz : dims = 0
        · subst hdz
          simp [newAttribArray, h0, hexp] at h
        · by_cases hmod : lx.tmod dims ≠ 0
          · simp [newAttribArray, h0, hexp, hdz, hmod] at h
          · simp [newAttribArray, h0, hexp, hdz, hmod, glGenBuffer] at h
            rw [← h.2]

/-- C10 witness: a uint32 slice of length 2 and capacity 5 creates an
element array with capacity 5, and an Update with 4 elements (more than
the 2 created, within the slice capacity 5) is accepted; a float32
attribute array of 4 elements records capacity equal to its length. -/
theorem elementArray_capacity_from_slice_cap_witness :
    (∃ arr : ElementArray,
      (newElementArray (ElemData.uint32Slice 2 5) STATIC_DRAW GLState.init).2 =
        Res.ok arr ∧
      arr.Cap = (5 : Int) ∧ arr.Len = (2 : Int) ∧
      elemUpdate arr (ElemData.uint32Slice 4 4) =
        Res.ok { arr with Len := (4 : Int) }) ∧
    AttribArray.Cap ⟨"a", 2, GLType.float, 1, 4, 4⟩ =
      AttribArray.Len ⟨"a", 2, GLType.float, 1, 4, 4⟩ := by
  constructor
  · exact elementArray_capacity_from_slice_cap.1 2 5 4 GLState.init
      (by decide) (by decide) (by decide)
  · exact elementArray_capacity_from_slice_cap.2 "a" 2 (GoData.float32Slice 4)
      STATIC_DRAW GLState.init ⟨2, [1], 0⟩ ⟨"a", 2, GLType.float, 1, 4, 4⟩
      (by rfl)
